import Mathlib

/-!
Shallow embedding of the device CRUD API of `quote0-api-demo`:
`src/lib/schemas.ts` (zod schemas, `validateDevice`, `normalizeDeviceData`)
and `src/app/dot/api/devices/route.ts` (GET/POST/PUT/DELETE handlers over a
Cloudflare KV namespace).

Modelling conventions:
- A stored KV value is the JSON-level content of the text under a key:
  `emptyText` (the stored text is `""`, falsy in JS), `notJson` (nonempty
  text on which `JSON.parse` throws), or `json d` (text parsing to the
  JSON object `d`).  A key not present in the store is `absent`
  (`values.get` yields a falsy result).
- A parsed JSON object destined to be a device is a `RawDevice`: each
  field is `Option String` (absent or a string); `content` is an optional
  object of four optional strings.  Writes store
  `json (JSON.parse (JSON.stringify d)) = json d`.
- `new Date().toISOString()` is modelled by an explicit `now : String`
  parameter threaded through each handler.
- Caught transport failures that the code branches on are explicit
  parameters: per-key read failures in scans (`readFails`), the swallowed
  pre-check `get` failure in POST and the two `get` failures in PUT, the
  per-key delete failure in bulk delete (`deleteFails`), and the outcome
  of the downstream notification `fetch` (`NotifyOutcome`, swallowed).
  Uncaught failures abort a request with a 500; the handlers below model
  the executions in which the uncaught calls return.
-/

set_option maxHeartbeats 2000000

set_option maxRecDepth 8000

namespace Quote0

/-- The JSON object under `content` as parsed from a request or a stored
record: four optional string fields (`DeviceContentSchema`). -/
structure RawContent where
  title : Option String
  message : Option String
  signature : Option String
  link : Option String
deriving DecidableEq

/-- A parsed JSON object in device position: every field optional, as JSON
imposes no shape.  Fields of non-string JSON type are not represented;
they would fail validation exactly like an absent required field. -/
structure RawDevice where
  owner : Option String
  ownerKey : Option String
  deviceId : Option String
  name : Option String
  content : Option RawContent
  createdAt : Option String
  updatedAt : Option String
deriving DecidableEq

/-- A device content validated by `DeviceContentSchema`. -/
structure DeviceContent where
  title : Option String
  message : Option String
  signature : Option String
  link : Option String
deriving DecidableEq

/-- A device validated by `DeviceSchema` (`validateDevice`). -/
structure Device where
  owner : String
  ownerKey : String
  deviceId : String
  name : String
  content : DeviceContent
  createdAt : Option String
  updatedAt : Option String
deriving DecidableEq

/-- `[A-Za-z0-9]` of the `ownerKey` regex. -/
def isAlnum (c : Char) : Bool := c.isAlpha || c.isDigit

/-- `[A-F0-9]` of the `deviceId` regex. -/
def isUpperHex (c : Char) : Bool :=
  (decide ('A' ≤ c) && decide (c ≤ 'F')) || c.isDigit

/-- `z.string().min(1).max(30)` for `owner`. -/
def validOwner (s : String) : Bool :=
  decide (1 ≤ s.data.length) && decide (s.data.length ≤ 30)

/-- `z.string().regex(/^dot_app_[A-Za-z0-9]{64}$/)` for `ownerKey`:
the `dot_app_` prefix followed by exactly 64 alphanumerics. -/
def validOwnerKey (s : String) : Bool :=
  decide (s.data.take 8 = "dot_app_".data) && decide (s.data.length = 72) &&
    (s.data.drop 8).all isAlnum

/-- `z.string().regex(/^[A-F0-9]{12}$/)` for `deviceId`. -/
def validDeviceId (s : String) : Bool :=
  decide (s.data.length = 12) && s.data.all isUpperHex

/-- `z.string().min(1).max(50)` for `name`. -/
def validName (s : String) : Bool :=
  decide (1 ≤ s.data.length) && decide (s.data.length ≤ 50)

/-- `z.string().datetime()`: `YYYY-MM-DDTHH:MM:SS(.digits)?Z` (digit
positions checked, no offset allowed). -/
def isDatetime (s : String) : Bool :=
  match s.data with
  | y1 :: y2 :: y3 :: y4 :: c1 :: m1 :: m2 :: c2 :: d1 :: d2 :: t ::
      h1 :: h2 :: c3 :: n1 :: n2 :: c4 :: s1 :: s2 :: rest =>
    [y1, y2, y3, y4, m1, m2, d1, d2, h1, h2, n1, n2, s1, s2].all Char.isDigit &&
    (c1 == '-') && (c2 == '-') && (t == 'T') && (c3 == ':') && (c4 == ':') &&
    (match rest with
     | ['Z'] => true
     | '.' :: fr =>
       decide (2 ≤ fr.length) && fr.dropLast.all Char.isDigit &&
         (fr.getLast? == some 'Z')
     | _ => false)
  | _ => false

/-- An optional field validated by a string predicate when present. -/
def optValid (p : String → Bool) (o : Option String) : Bool :=
  match o with
  | none => true
  | some s => p s

/-- `DeviceContentSchema` checks: `title ≤ 100`, `message ≤ 500`,
`signature ≤ 50`, `link` any string. -/
def validContent (c : RawContent) : Bool :=
  optValid (fun s => decide (s.data.length ≤ 100)) c.title &&
  optValid (fun s => decide (s.data.length ≤ 500)) c.message &&
  optValid (fun s => decide (s.data.length ≤ 50)) c.signature

/-- `validateDevice` = `DeviceSchema.parse`: `none` models a thrown
`ZodError`. -/
def validateDevice (r : RawDevice) : Option Device :=
  match r.owner, r.ownerKey, r.deviceId, r.name, r.content with
  | some o, some k, some i, some n, some c =>
    if validOwner o && validOwnerKey k && validDeviceId i && validName n &&
       validContent c && optValid isDatetime r.createdAt &&
       optValid isDatetime r.updatedAt then
      some { owner := o, ownerKey := k, deviceId := i, name := n,
             content := ⟨c.title, c.message, c.signature, c.link⟩,
             createdAt := r.createdAt, updatedAt := r.updatedAt }
    else
      none
  | _, _, _, _, _ => none

/-- Re-serialization of a validated device, as written back by the
handlers (`JSON.stringify` then `JSON.parse` round-trip). -/
def Device.toRaw (d : Device) : RawDevice :=
  { owner := some d.owner, ownerKey := some d.ownerKey,
    deviceId := some d.deviceId, name := some d.name,
    content := some ⟨d.content.title, d.content.message,
                     d.content.signature, d.content.link⟩,
    createdAt := d.createdAt, updatedAt := d.updatedAt }

/-- JS `x || dflt` on an optional string: `none` and `""` are falsy. -/
def jsOrElse (o : Option String) (dflt : String) : String :=
  match o with
  | none => dflt
  | some s => if s == "" then dflt else s

/-- `normalizeDeviceData`: spread, `createdAt := rawData.createdAt || now`,
`updatedAt := now`. -/
def normalizeDeviceData (r : RawDevice) (now : String) : RawDevice :=
  { r with createdAt := some (jsOrElse r.createdAt now),
           updatedAt := some now }

/-- The JSON-level content of the text stored under a KV key. -/
inductive StoredVal where
  | emptyText
  | notJson
  | json (d : RawDevice)
deriving DecidableEq

/-- The KV namespace: association list from key to stored value. -/
abbrev Store := List (String × StoredVal)

/-- `values.get` on a key (transport assumed healthy). -/
def lookup (st : Store) (k : String) : Option StoredVal :=
  (st.find? (fun e => e.1 == k)).map (fun e => e.2)

/-- `values.update`: write a value under a key. -/
def setVal (st : Store) (k : String) (v : StoredVal) : Store :=
  if st.any (fun e => e.1 == k) then
    st.map (fun e => if e.1 == k then (k, v) else e)
  else
    st ++ [(k, v)]

/-- `values.delete`: remove a key. -/
def delVal (st : Store) (k : String) : Store :=
  st.filter (fun e => e.1 != k)

/-- One scanned entry of the list-all loop (GET with no params): skip keys
whose read fails, skip empty text, skip `JSON.parse` throws, skip
`validateDevice` throws; keep the validated device. -/
def scanEntry (readFails : String → Bool) (e : String × StoredVal) :
    Option Device :=
  if readFails e.1 then none
  else
    match e.2 with
    | .json d => validateDevice d
    | _ => none

/-- The GET list-all loop: push each surviving device in key order. -/
def listAll (readFails : String → Bool) : Store → List Device
  | [] => []
  | e :: rest =>
    match scanEntry readFails e with
    | some dev => dev :: listAll readFails rest
    | none => listAll readFails rest

/-- The GET by-owner loop: same scan, keeping only devices whose `owner`
and `ownerKey` both equal the supplied pair. -/
def listByOwner (readFails : String → Bool) (owner ownerKey : String) :
    Store → List Device
  | [] => []
  | e :: rest =>
    match scanEntry readFails e with
    | some dev =>
      if dev.owner == owner && dev.ownerKey == ownerKey then
        dev :: listByOwner readFails owner ownerKey rest
      else
        listByOwner readFails owner ownerKey rest
    | none => listByOwner readFails owner ownerKey rest

/-- A parsed JSON request body for POST/PUT: the fields the schemas look
at (zod strips unknown keys; `metadata` only decorates the KV write and
is not modelled). -/
structure ReqBody where
  key : Option String
  value : Option RawDevice
  content : Option RawContent
  ttl : Option Nat
deriving DecidableEq

/-- `ttl: z.number().min(60).max(31536000).optional()`. -/
def validTtl (t : Option Nat) : Bool :=
  match t with
  | none => true
  | some n => decide (60 ≤ n) && decide (n ≤ 31536000)

/-- A body accepted by `CreateDeviceRequestSchema`
(= `UpdateDeviceRequestSchema`). -/
structure ParsedCreate where
  key : String
  value : Device
  ttl : Option Nat
deriving DecidableEq

/-- `CreateDeviceRequestSchema.parse`: `key` a nonempty string, `value` a
valid device, `ttl` in range when present; `none` models a `ZodError`. -/
def parseCreateReq (b : ReqBody) : Option ParsedCreate :=
  match b.key, b.value with
  | some k, some v =>
    match validateDevice v with
    | some d =>
      if decide (1 ≤ k.data.length) && validTtl b.ttl then some ⟨k, d, b.ttl⟩
      else none
    | none => none
  | _, _ => none

/-- `UpdateDeviceContentRequestSchema.parse`: `key` a nonempty string and
a valid `content` object. -/
def parseContentReq (b : ReqBody) : Option (String × RawContent) :=
  match b.key, b.content with
  | some k, some c =>
    if decide (1 ≤ k.data.length) && validContent c then some (k, c) else none
  | _, _ => none

/-- Outcome of a POST request. -/
inductive PostResult where
  | created (key : String) (device : RawDevice)
  | conflict
  | validationError
deriving DecidableEq

/-- The POST handler: parse the body, pre-check existence (a failing
pre-check `get` is swallowed and creation proceeds), normalize and write.
Returns the response and the resulting store. -/
def postCreate (preGetFails : Bool) (st : Store) (b : ReqBody)
    (now : String) : PostResult × Store :=
  match parseCreateReq b with
  | none => (.validationError, st)
  | some p =>
    let hasData : Bool :=
      if preGetFails then false
      else
        match lookup st p.key with
        | none => false
        | some .emptyText => false
        | some _ => true
    if hasData then (.conflict, st)
    else
      let nd := normalizeDeviceData p.value.toRaw now
      (.created p.key nd, setVal st p.key (.json nd))

/-- Outcome of the downstream notification `fetch` (swallowed by the
handler either way). -/
inductive NotifyOutcome where
  | ok
  | httpError (status : Nat)
  | networkError
deriving DecidableEq

/-- Outcome of a PUT request. -/
inductive PutResult where
  | updated (key : String) (device : RawDevice)
  | notFound
  | validationError
  | serverError
deriving DecidableEq

/-- Full observable outcome of a PUT: HTTP response, resulting store,
whether the Notification Dispatcher was invoked, and what the downstream
call returned when it was. -/
structure PutOut where
  response : PutResult
  store : Store
  notifyInvoked : Bool
  notifyResult : Option NotifyOutcome
deriving DecidableEq

/-- Tail of both PUT branches: `normalizeDeviceData`, write to KV (an
uncaught write failure yields the 500 envelope), then notify whenever
`normalizedDevice.content` is truthy, swallowing the notify outcome. -/
def putWrite (writeFails : Bool) (notifyOut : NotifyOutcome) (st : Store)
    (key : String) (merged : RawDevice) (now : String) : PutOut :=
  let nd := normalizeDeviceData merged now
  if writeFails then ⟨.serverError, st, false, none⟩
  else
    let invoked := nd.content.isSome
    ⟨.updated key nd, setVal st key (.json nd), invoked,
      if invoked then some notifyOut else none⟩

/-- The full-update branch of PUT: parse as `UpdateDeviceRequestSchema`;
fetch the existing record to preserve its `createdAt` (a failing fetch or
an unparseable existing value falls back to the caller's value alone),
then write and notify. -/
def putFullBranch (fullGetFails writeFails : Bool)
    (notifyOut : NotifyOutcome) (st : Store) (b : ReqBody)
    (now : String) : PutOut :=
  match parseCreateReq b with
  | none => ⟨.validationError, st, false, none⟩
  | some p =>
    let merged : RawDevice :=
      if fullGetFails then p.value.toRaw
      else
        match lookup st p.key with
        | some (.json ex) =>
          { p.value.toRaw with
              createdAt := some (jsOrElse ex.createdAt now),
              updatedAt := some now }
        | _ => p.value.toRaw
    putWrite writeFails notifyOut st p.key merged now

/-- The PUT handler: try `UpdateDeviceContentRequestSchema` first; on a
parse failure, a failing `get`, or an unparseable existing value (the
thrown error lands in the same catch), fall back to the full-update
branch.  An absent or empty existing value returns 404 directly. -/
def putHandler (contentGetFails fullGetFails writeFails : Bool)
    (notifyOut : NotifyOutcome) (st : Store) (b : ReqBody)
    (now : String) : PutOut :=
  match parseContentReq b with
  | some (key, content) =>
    if contentGetFails then
      putFullBranch fullGetFails writeFails notifyOut st b now
    else
      match lookup st key with
      | none => ⟨.notFound, st, false, none⟩
      | some .emptyText => ⟨.notFound, st, false, none⟩
      | some .notJson =>
        putFullBranch fullGetFails writeFails notifyOut st b now
      | some (.json ex) =>
        let merged := { ex with content := some content,
                                updatedAt := some now }
        putWrite writeFails notifyOut st key merged now
  | none => putFullBranch fullGetFails writeFails notifyOut st b now

/-- Outcome of a GET request. -/
inductive GetResult where
  | allDevices (devices : List Device)
  | byOwner (owner : String) (devices : List Device)
  | oneDevice (key : String) (device : Device)
  | notFound
  | validationError
  | serverError
deriving DecidableEq

/-- The single-device branch of GET: a falsy result is 404; empty or
non-JSON text makes `JSON.parse` throw (500); a schema-invalid record
surfaces the `ZodError` (400).  A thrown `get` is classified by whether
its message contains "not found". -/
def getOne (getFails msgSaysNotFound : Bool) (st : Store)
    (key : String) : GetResult :=
  if getFails then
    if msgSaysNotFound then .notFound else .serverError
  else
    match lookup st key with
    | none => .notFound
    | some .emptyText => .serverError
    | some .notJson => .serverError
    | some (.json d) =>
      match validateDevice d with
      | some dev => .oneDevice key dev
      | none => .validationError

/-- JS truthiness of `searchParams.get(...)`: `null` and `""` are falsy. -/
def jsTruthy (o : Option String) : Bool :=
  match o with
  | none => false
  | some s => s != ""

/-- The GET handler: by-owner when both `owner` and `ownerKey` are truthy,
list-all when `key` is falsy, otherwise the single-device branch. -/
def getHandler (readFails : String → Bool) (getFails msgSaysNotFound : Bool)
    (st : Store) (key owner ownerKey : Option String) : GetResult :=
  if jsTruthy owner && jsTruthy ownerKey then
    .byOwner (owner.getD "")
      (listByOwner readFails (owner.getD "") (ownerKey.getD "") st)
  else if !(jsTruthy key) then
    .allDevices (listAll readFails st)
  else
    getOne getFails msgSaysNotFound st (key.getD "")

/-- Whether a scanned entry is matched by the bulk-delete loop: readable,
parseable, schema-valid, and owned by the supplied pair. -/
def entryMatches (readFails : String → Bool) (owner ownerKey : String)
    (e : String × StoredVal) : Bool :=
  match scanEntry readFails e with
  | some dev => dev.owner == owner && dev.ownerKey == ownerKey
  | none => false

/-- The bulk-delete loop over the key listing taken at entry (KV keys are
distinct, so the per-item `get` returns the snapshot value): delete each
matched key, skipping a failed delete (the throw lands in the per-item
catch, before the key is pushed), and record the keys actually deleted. -/
def deleteByOwnerLoop (readFails deleteFails : String → Bool)
    (owner ownerKey : String) :
    List (String × StoredVal) → Store → List String × Store
  | [], st => ([], st)
  | e :: rest, st =>
    if entryMatches readFails owner ownerKey e && !deleteFails e.1 then
      let out := deleteByOwnerLoop readFails deleteFails owner ownerKey
        rest (delVal st e.1)
      (e.1 :: out.1, out.2)
    else
      deleteByOwnerLoop readFails deleteFails owner ownerKey rest st

/-- The bulk-delete branch of DELETE: returns the deleted keys (the
response reports them and their count) and the resulting store. -/
def deleteByOwner (readFails deleteFails : String → Bool)
    (owner ownerKey : String) (st : Store) : List String × Store :=
  deleteByOwnerLoop readFails deleteFails owner ownerKey st st

/-- Whether a stored value is malformed as a device record: empty text,
text `JSON.parse` rejects, or a JSON object `validateDevice` rejects. -/
def isMalformedVal (v : StoredVal) : Bool :=
  match v with
  | .emptyText => true
  | .notJson => true
  | .json d => (validateDevice d).isNone

/-- Test fixture: a well-formed `ownerKey`. -/
def fixtureKey : String :=
  "dot_app_aaaaaaaaaaaaaaaaaaaaaaaaaaaaaaaaaaaaaaaaaaaaaaaaaaaaaaaaaaaaaaaa"

/-- Test fixture: the validated form of the `alice` device. -/
def fixtureDevice : Device :=
  { owner := "alice", ownerKey := fixtureKey, deviceId := "AABBCCDDEEFF",
    name := "Desk", content := ⟨none, none, none, none⟩,
    createdAt := none, updatedAt := none }

/-- Test fixture: a schema-valid device owned by `alice`. -/
def fixtureRaw : RawDevice :=
  { owner := some "alice", ownerKey := some fixtureKey,
    deviceId := some "AABBCCDDEEFF", name := some "Desk",
    content := some ⟨none, none, none, none⟩,
    createdAt := none, updatedAt := none }

/-- Test fixture: a schema-valid device owned by `bob`. -/
def fixtureRawB : RawDevice :=
  { fixtureRaw with owner := some "bob", deviceId := some "AABBCCDDEE01",
                    name := some "Shelf" }

/-- Test fixture: a store with one valid device and one non-JSON value. -/
def fixtureStore : Store :=
  [("AABBCCDDEEFF", .json fixtureRaw), ("B", .notJson)]

/-- C6: for every store and every `(owner, ownerKey)` pair, the by-owner
scan returns exactly the subset of the list-all scan whose records match
on both `owner` and `ownerKey`. -/
theorem listByOwner_eq_filter_listAll (rf : String → Bool) (o k : String)
    (st : Store) :
    listByOwner rf o k st =
      (listAll rf st).filter (fun d => d.owner == o && d.ownerKey == k) := by
  induction st with
  | nil => rfl
  | cons e rest ih =>
    cases hs : scanEntry rf e with
    | none => simpa [listByOwner, listAll, hs] using ih
    | some dev =>
      by_cases hm : (dev.owner == o && dev.ownerKey == k) = true
      · simp [listByOwner, listAll, hs, hm, ih]
      · simp [listByOwner, listAll, hs, hm, ih]

/-- C3: the list-all scan returns exactly the records that read, parse and
validate (each malformed entry is dropped without aborting the scan),
while a single-key GET on a key holding a malformed value surfaces an
error (500 for unreadable JSON, 400 for a schema violation) rather than
skipping it. -/
theorem listAll_drops_malformed_getOne_errors (rf : String → Bool)
    (st : Store) (k : String) (v : StoredVal)
    (hv : lookup st k = some v) (hm : isMalformedVal v = true) :
    listAll rf st = st.filterMap (scanEntry rf) ∧
    (getOne false false st k = .serverError ∨
     getOne false false st k = .validationError) := by
  constructor
  · clear hv hm
    induction st with
    | nil => rfl
    | cons e rest ih =>
      cases hs : scanEntry rf e with
      | none => simpa [listAll, hs] using ih
      | some dev => simp [listAll, hs, ih]
  · cases v with
    | emptyText => exact Or.inl (by simp [getOne, hv])
    | notJson => exact Or.inl (by simp [getOne, hv])
    | json d =>
      have hd : validateDevice d = none := by
        simpa [isMalformedVal, Option.isNone_iff_eq_none] using hm
      exact Or.inr (by simp [getOne, hv, hd])

/-- Witness for C3 on the fixture store: the non-JSON value under `"B"` is
dropped by the scan and surfaces a 500 on direct lookup. -/
theorem listAll_drops_malformed_getOne_errors_witness :
    (lookup fixtureStore "B" = some .notJson ∧
     isMalformedVal .notJson = true) ∧
    (listAll (fun _ => false) fixtureStore =
       fixtureStore.filterMap (scanEntry (fun _ => false)) ∧
     (getOne false false fixtureStore "B" = .serverError ∨
      getOne false false fixtureStore "B" = .validationError)) :=
  ⟨⟨by decide, by decide⟩,
   listAll_drops_malformed_getOne_errors (fun _ => false) fixtureStore "B"
     .notJson (by decide) (by decide)⟩

/-- C10: a GET that does not supply both halves of the owner pair (and no
`key`) is not an error and is not filtered: it falls through to the
list-all branch and returns every valid device. -/
theorem getHandler_partial_owner_pair_lists_all (rf : String → Bool)
    (gf mnf : Bool) (st : Store) (key owner ownerKey : Option String)
    (hk : jsTruthy key = false)
    (ho : jsTruthy owner = false ∨ jsTruthy ownerKey = false) :
    getHandler rf gf mnf st key owner ownerKey =
      .allDevices (listAll rf st) := by
  rcases ho with ho | ho <;> simp [getHandler, hk, ho]

/-- Witness for C10: `owner` supplied without `ownerKey` returns the full
listing of the fixture store. -/
theorem getHandler_partial_owner_pair_lists_all_witness :
    (jsTruthy (some "") = false ∧ jsTruthy (none : Option String) = false) ∧
    getHandler (fun _ => false) false false fixtureStore (some "")
        (some "alice") none =
      .allDevices (listAll (fun _ => false) fixtureStore) :=
  ⟨⟨by decide, by decide⟩,
   getHandler_partial_owner_pair_lists_all (fun _ => false) false false
     fixtureStore (some "") (some "alice") none (by decide)
     (Or.inr (by decide))⟩

/-- A body with no `content` field never parses as a content update. -/
theorem parseContentReq_none_of_content_none (b : ReqBody)
    (hb : b.content = none) : parseContentReq b = none := by
  cases hk : b.key <;> simp [parseContentReq, hk, hb]

/-- A device accepted by `validateDevice` has a `deviceId` matching the
12-uppercase-hex pattern. -/
theorem validateDevice_deviceId (r : RawDevice) (d : Device)
    (h : validateDevice r = some d) : validDeviceId d.deviceId = true := by
  unfold validateDevice at h
  split at h
  next o k i n c =>
    split at h
    next hcond =>
      cases h
      simp only [Bool.and_eq_true] at hcond
      tauto
    next => exact absurd h (by simp)
  next => exact absurd h (by simp)

/-- C1: with the pre-check read succeeding, a create on a key holding a
non-empty value fails with the 409 conflict and leaves the store
untouched, a create on an absent or empty-valued key normalizes and
writes the new record, and a create succeeds only in the latter case. -/
theorem postCreate_conflict_iff_nonempty (st : Store) (b : ReqBody)
    (now : String) (p : ParsedCreate) (hp : parseCreateReq b = some p) :
    ((∃ v, lookup st p.key = some v ∧ v ≠ .emptyText) →
       postCreate false st b now = (.conflict, st)) ∧
    ((lookup st p.key = none ∨ lookup st p.key = some .emptyText) →
       postCreate false st b now =
         (.created p.key (normalizeDeviceData p.value.toRaw now),
          setVal st p.key (.json (normalizeDeviceData p.value.toRaw now)))) ∧
    (∀ k d, (postCreate false st b now).1 = .created k d →
       lookup st p.key = none ∨ lookup st p.key = some .emptyText) := by
  refine ⟨?_, ?_, ?_⟩
  · rintro ⟨v, hv, hne⟩
    cases v with
    | emptyText => exact absurd rfl hne
    | notJson => simp [postCreate, hp, hv]
    | json d => simp [postCreate, hp, hv]
  · rintro (h | h) <;> simp [postCreate, hp, h]
  · intro k d h
    rcases hl : lookup st p.key with _ | v
    · exact Or.inl rfl
    · cases v with
      | emptyText => exact Or.inr rfl
      | notJson => simp [postCreate, hp, hl] at h
      | json d2 => simp [postCreate, hp, hl] at h

/-- Witness for C1: a duplicate create on the fixture store conflicts, and
a create on the empty store succeeds. -/
theorem postCreate_conflict_iff_nonempty_witness :
    (parseCreateReq ⟨some "AABBCCDDEEFF", some fixtureRaw, none, none⟩ =
       some ⟨"AABBCCDDEEFF", fixtureDevice, none⟩ ∧
     lookup fixtureStore "AABBCCDDEEFF" = some (.json fixtureRaw) ∧
     StoredVal.json fixtureRaw ≠ .emptyText) ∧
    postCreate false fixtureStore
        ⟨some "AABBCCDDEEFF", some fixtureRaw, none, none⟩ "T" =
      (.conflict, fixtureStore) :=
  ⟨⟨by decide, by decide, by decide⟩,
   (postCreate_conflict_iff_nonempty fixtureStore
       ⟨some "AABBCCDDEEFF", some fixtureRaw, none, none⟩ "T"
       ⟨"AABBCCDDEEFF", fixtureDevice, none⟩
       (by decide)).1 ⟨.json fixtureRaw, by decide, by decide⟩⟩

/-- C9 counterexample: the create handler never compares the caller's
`key` with `value.deviceId`; creating with `key = "K1"` and
`deviceId = "AABBCCDDEEFF"` succeeds and stores the record under `"K1"`. -/
theorem postCreate_key_deviceId_mismatch :
    (postCreate false [] ⟨some "K1", some fixtureRaw, none, none⟩ "T").2 =
      [("K1", .json (normalizeDeviceData fixtureRaw "T"))] ∧
    (normalizeDeviceData fixtureRaw "T").deviceId = some "AABBCCDDEEFF" ∧
    ("K1" : String) ≠ "AABBCCDDEEFF" ∧
    (postCreate false [] ⟨some "K1", some fixtureRaw, none, none⟩ "T").1 =
      .created "K1" (normalizeDeviceData fixtureRaw "T") := by
  refine ⟨by decide, by decide, by decide, by decide⟩

/-- C9 (amended): create and full-update persist the record under the
caller-supplied `key`, which must merely be a nonempty string and is not
checked against the record's `deviceId`; the `deviceId` field itself is
validated against the 12-uppercase-hex pattern. -/
theorem write_stores_under_caller_key (st : Store) (b : ReqBody)
    (now : String) (p : ParsedCreate) (cgf fgf : Bool) (no : NotifyOutcome)
    (hp : parseCreateReq b = some p) (hb : b.content = none)
    (hfree : lookup st p.key = none) :
    (postCreate false st b now).2 =
      setVal st p.key (.json (normalizeDeviceData p.value.toRaw now)) ∧
    (putHandler cgf fgf false no st b now).store =
      setVal st p.key (.json (normalizeDeviceData p.value.toRaw now)) ∧
    validDeviceId p.value.deviceId = true ∧ 1 ≤ p.key.data.length := by
  have hc := parseContentReq_none_of_content_none b hb
  refine ⟨by simp [postCreate, hp, hfree], ?_, ?_, ?_⟩
  · cases fgf <;>
      simp [putHandler, hc, putFullBranch, hp, hfree, putWrite]
  · obtain ⟨bk, bv, bc, bt⟩ := b
    cases hbk : bk <;> cases hbv : bv <;>
      simp [parseCreateReq, hbk, hbv] at hp
    next k0 v0 =>
      rcases hvd : validateDevice v0 with _ | d0 <;>
        simp [hvd] at hp
      rcases hp with ⟨hcond, hkey⟩
      subst hkey
      exact validateDevice_deviceId v0 d0 hvd
  · obtain ⟨bk, bv, bc, bt⟩ := b
    cases hbk : bk <;> cases hbv : bv <;>
      simp [parseCreateReq, hbk, hbv] at hp
    next k0 v0 =>
      rcases hvd : validateDevice v0 with _ | d0 <;>
        simp [hvd] at hp
      rcases hp with ⟨hcond, hkey⟩
      subst hkey
      exact hcond.1

/-- Witness for C9 (amended) at the empty store and fixture request. -/
theorem write_stores_under_caller_key_witness :
    (parseCreateReq ⟨some "K1", some fixtureRaw, none, none⟩ =
       some ⟨"K1", fixtureDevice, none⟩ ∧
     lookup [] "K1" = none) ∧
    ((postCreate false [] ⟨some "K1", some fixtureRaw, none, none⟩ "T").2 =
       setVal [] "K1" (.json (normalizeDeviceData fixtureDevice.toRaw "T")) ∧
     (putHandler false false false .ok []
         ⟨some "K1", some fixtureRaw, none, none⟩ "T").store =
       setVal [] "K1" (.json (normalizeDeviceData fixtureDevice.toRaw "T")) ∧
     validDeviceId fixtureDevice.deviceId = true ∧
     1 ≤ ("K1" : String).data.length) :=
  ⟨⟨by decide, by decide⟩,
   write_stores_under_caller_key [] ⟨some "K1", some fixtureRaw, none, none⟩
     "T" ⟨"K1", fixtureDevice, none⟩ false false .ok (by decide) (by decide)
     (by decide)⟩

/-- Test fixture: the `alice` device with stamped timestamps, as stored
after a create at time `T0`. -/
def fixtureStored : RawDevice :=
  { fixtureRaw with createdAt := some "T0", updatedAt := some "T0" }

/-- Test fixture: a full-update value carrying a new name and a caller
-supplied `createdAt` that the handler must ignore. -/
def fixtureNewRaw : RawDevice :=
  { fixtureRaw with name := some "New",
                    createdAt := some "2024-01-01T00:00:00Z" }

/-- Test fixture: the validated form of `fixtureNewRaw`. -/
def fixtureNewDevice : Device :=
  { fixtureDevice with name := "New",
                       createdAt := some "2024-01-01T00:00:00Z" }

/-- C2: a full update on a key holding a parseable record with a non-empty
`createdAt` keeps that `createdAt` (ignoring the caller's), stamps
`updatedAt` with the server time, takes every other field from the
caller's value, writes the result, and then notifies. -/
theorem putFull_preserves_createdAt (st : Store) (b : ReqBody)
    (now : String) (p : ParsedCreate) (ex : RawDevice) (t : String)
    (no : NotifyOutcome) (hb : b.content = none)
    (hp : parseCreateReq b = some p)
    (hex : lookup st p.key = some (.json ex))
    (ht : ex.createdAt = some t) (ht0 : t ≠ "") :
    putHandler false false false no st b now =
      ⟨.updated p.key
         { p.value.toRaw with createdAt := some t, updatedAt := some now },
       setVal st p.key (.json
         { p.value.toRaw with createdAt := some t, updatedAt := some now }),
       true, some no⟩ := by
  have hc := parseContentReq_none_of_content_none b hb
  have ht0' : (t == "") = false := beq_eq_false_iff_ne.2 ht0
  simp [putHandler, hc, putFullBranch, hp, hex, putWrite,
        normalizeDeviceData, jsOrElse, ht, ht0', Device.toRaw]

/-- Witness for C2: updating the stored fixture with a new name and a
bogus caller `createdAt` keeps `createdAt = "T0"` and stamps
`updatedAt = "T1"`. -/
theorem putFull_preserves_createdAt_witness :
    ((⟨some "AABBCCDDEEFF", some fixtureNewRaw, none, none⟩ :
        ReqBody).content = none ∧
     parseCreateReq ⟨some "AABBCCDDEEFF", some fixtureNewRaw, none, none⟩ =
       some ⟨"AABBCCDDEEFF", fixtureNewDevice, none⟩ ∧
     lookup [("AABBCCDDEEFF", .json fixtureStored)] "AABBCCDDEEFF" =
       some (.json fixtureStored) ∧
     fixtureStored.createdAt = some "T0" ∧ ("T0" : String) ≠ "") ∧
    putHandler false false false .ok [("AABBCCDDEEFF", .json fixtureStored)]
        ⟨some "AABBCCDDEEFF", some fixtureNewRaw, none, none⟩ "T1" =
      ⟨.updated "AABBCCDDEEFF"
         { fixtureNewDevice.toRaw with createdAt := some "T0",
                                       updatedAt := some "T1" },
       setVal [("AABBCCDDEEFF", .json fixtureStored)] "AABBCCDDEEFF"
         (.json { fixtureNewDevice.toRaw with createdAt := some "T0",
                                              updatedAt := some "T1" }),
       true, some .ok⟩ :=
  ⟨⟨by decide, by decide, by decide, by decide, by decide⟩,
   putFull_preserves_createdAt [("AABBCCDDEEFF", .json fixtureStored)]
     ⟨some "AABBCCDDEEFF", some fixtureNewRaw, none, none⟩ "T1"
     ⟨"AABBCCDDEEFF", fixtureNewDevice, none⟩ fixtureStored "T0" .ok
     (by decide) (by decide) (by decide) (by decide) (by decide)⟩

/-- C4 counterexample: a full update whose `value.content` equals the
stored record's `content` (nothing differs) still invokes the
Notification Dispatcher, refuting "invoked if and only if the content
differs". -/
theorem putFull_notifies_on_unchanged_content :
    (putHandler false false false .ok
        [("AABBCCDDEEFF", .json fixtureStored)]
        ⟨some "AABBCCDDEEFF", some fixtureRaw, none, none⟩
        "T1").notifyInvoked = true ∧
    fixtureRaw.content = fixtureStored.content ∧
    lookup [("AABBCCDDEEFF", .json fixtureStored)] "AABBCCDDEEFF" =
      some (.json fixtureStored) := by
  refine ⟨by decide, by decide, by decide⟩

/-- C4 (amended): on a full update the Notification Dispatcher is invoked
exactly when the key-value write succeeds — the handler only checks that
the normalized record has a `content` object, which every schema-valid
value has, and never compares it with the previously stored content; on a
failed write the dispatcher is not reached. -/
theorem putFull_notify_iff_write_ok (wf cgf fgf : Bool)
    (no : NotifyOutcome) (st : Store) (b : ReqBody) (now : String)
    (p : ParsedCreate) (hb : b.content = none)
    (hp : parseCreateReq b = some p) :
    (putHandler cgf fgf wf no st b now).notifyInvoked = !wf := by
  have hc := parseContentReq_none_of_content_none b hb
  cases wf with
  | true => simp [putHandler, hc, putFullBranch, hp, putWrite]
  | false =>
    cases fgf with
    | false =>
      rcases hl : lookup st p.key with _ | v
      · simp [putHandler, hc, putFullBranch, hp, hl, putWrite,
              normalizeDeviceData, Device.toRaw]
      · cases v <;>
          simp [putHandler, hc, putFullBranch, hp, hl, putWrite,
                normalizeDeviceData, Device.toRaw]
    | true =>
      simp [putHandler, hc, putFullBranch, hp, putWrite,
            normalizeDeviceData, Device.toRaw]

/-- Witness for C4 (amended): with a failing write the dispatcher is not
invoked; `putFull_notifies_on_unchanged_content` exhibits the succeeding
case. -/
theorem putFull_notify_iff_write_ok_witness :
    ((⟨some "AABBCCDDEEFF", some fixtureRaw, none, none⟩ :
        ReqBody).content = none ∧
     parseCreateReq ⟨some "AABBCCDDEEFF", some fixtureRaw, none, none⟩ =
       some ⟨"AABBCCDDEEFF", fixtureDevice, none⟩) ∧
    (putHandler false false true .ok []
        ⟨some "AABBCCDDEEFF", some fixtureRaw, none, none⟩
        "T1").notifyInvoked = !true :=
  ⟨⟨by decide, by decide⟩,
   putFull_notify_iff_write_ok true false false .ok []
     ⟨some "AABBCCDDEEFF", some fixtureRaw, none, none⟩ "T1"
     ⟨"AABBCCDDEEFF", fixtureDevice, none⟩ (by decide) (by decide)⟩

/-- With a successful write, the response and resulting store of
`putWrite` do not depend on the notification outcome. -/
theorem putWrite_indep (wf : Bool) (o o' : NotifyOutcome) (st : Store)
    (k : String) (m : RawDevice) (now : String) :
    (putWrite wf o st k m now).response =
        (putWrite wf o' st k m now).response ∧
      (putWrite wf o st k m now).store = (putWrite wf o' st k m now).store := by
  cases wf <;> simp [putWrite]

/-- C5: for every PUT whose key-value write succeeds, the HTTP response
and the resulting store are independent of the downstream notification's
outcome (network error or non-2xx alike), and a parsed full update always
yields the success envelope for its key. -/
theorem putHandler_ignores_notify_outcome (cgf fgf : Bool) (st : Store)
    (now : String) (o o' : NotifyOutcome) (b : ReqBody) (p : ParsedCreate)
    (hb : b.content = none) (hp : parseCreateReq b = some p) :
    (∀ b' : ReqBody,
       (putHandler cgf fgf false o st b' now).response =
           (putHandler cgf fgf false o' st b' now).response ∧
         (putHandler cgf fgf false o st b' now).store =
           (putHandler cgf fgf false o' st b' now).store) ∧
    (∃ d, (putHandler cgf fgf false o st b now).response =
       .updated p.key d) := by
  constructor
  · intro b'
    rcases hc : parseContentReq b' with _ | kc
    · rcases hp' : parseCreateReq b' with _ | p'
      · simp [putHandler, hc, putFullBranch, hp']
      · simp only [putHandler, hc, putFullBranch, hp']
        exact putWrite_indep _ _ _ _ _ _ _
    · obtain ⟨k', c'⟩ := kc
      cases cgf with
      | true =>
        rcases hp' : parseCreateReq b' with _ | p'
        · simp [putHandler, hc, putFullBranch, hp']
        · simp only [putHandler, hc, putFullBranch, hp', if_true]
          exact putWrite_indep _ _ _ _ _ _ _
      | false =>
        rcases hl : lookup st k' with _ | v
        · simp [putHandler, hc, hl]
        · cases v with
          | emptyText => simp [putHandler, hc, hl]
          | notJson =>
            rcases hp' : parseCreateReq b' with _ | p'
            · simp [putHandler, hc, hl, putFullBranch, hp']
            · simp only [putHandler, hc, hl, putFullBranch, hp',
                         Bool.false_eq_true, if_false]
              exact putWrite_indep _ _ _ _ _ _ _
          | json ex =>
            simp only [putHandler, hc, hl, Bool.false_eq_true, if_false]
            exact putWrite_indep _ _ _ _ _ _ _
  · have hcb := parseContentReq_none_of_content_none b hb
    simp only [putHandler, hcb, putFullBranch, hp]
    exact ⟨_, rfl⟩

/-- Witness for C5: on the fixture update, a network error and a 500 from
the notification API produce the same response and store, and the
response is the success envelope. -/
theorem putHandler_ignores_notify_outcome_witness :
    ((⟨some "AABBCCDDEEFF", some fixtureNewRaw, none, none⟩ :
        ReqBody).content = none ∧
     parseCreateReq ⟨some "AABBCCDDEEFF", some fixtureNewRaw, none, none⟩ =
       some ⟨"AABBCCDDEEFF", fixtureNewDevice, none⟩) ∧
    ((∀ b' : ReqBody,
       (putHandler false false false .networkError
           [("AABBCCDDEEFF", .json fixtureStored)] b' "T1").response =
           (putHandler false false false (.httpError 500)
             [("AABBCCDDEEFF", .json fixtureStored)] b' "T1").response ∧
         (putHandler false false false .networkError
             [("AABBCCDDEEFF", .json fixtureStored)] b' "T1").store =
           (putHandler false false false (.httpError 500)
             [("AABBCCDDEEFF", .json fixtureStored)] b' "T1").store) ∧
     (∃ d, (putHandler false false false .networkError
         [("AABBCCDDEEFF", .json fixtureStored)]
         ⟨some "AABBCCDDEEFF", some fixtureNewRaw, none, none⟩
         "T1").response = .updated "AABBCCDDEEFF" d)) :=
  ⟨⟨by decide, by decide⟩,
   putHandler_ignores_notify_outcome false false
     [("AABBCCDDEEFF", .json fixtureStored)] "T1" .networkError
     (.httpError 500) ⟨some "AABBCCDDEEFF", some fixtureNewRaw, none, none⟩
     ⟨"AABBCCDDEEFF", fixtureNewDevice, none⟩ (by decide) (by decide)⟩

/-- C7: a content-only update whose key is absent or holds the empty
value returns the 404 not-found envelope, performs no write (the store is
returned unchanged), and never reaches the dispatcher. -/
theorem putContent_missing_notFound (st : Store) (b : ReqBody)
    (now : String) (k : String) (c : RawContent) (fgf wf : Bool)
    (no : NotifyOutcome) (hp : parseContentReq b = some (k, c))
    (h : lookup st k = none ∨ lookup st k = some .emptyText) :
    putHandler false fgf wf no st b now = ⟨.notFound, st, false, none⟩ := by
  rcases h with h | h <;> simp [putHandler, hp, h]

/-- Witness for C7: a content update for an absent key on the empty store
is a 404 with no write. -/
theorem putContent_missing_notFound_witness :
    (parseContentReq ⟨some "AABBCCDDEEFF", none,
         some ⟨some "hi", none, none, none⟩, none⟩ =
       some ("AABBCCDDEEFF", ⟨some "hi", none, none, none⟩) ∧
     lookup [] "AABBCCDDEEFF" = none) ∧
    putHandler false false false .ok []
        ⟨some "AABBCCDDEEFF", none, some ⟨some "hi", none, none, none⟩,
         none⟩ "T1" =
      ⟨.notFound, [], false, none⟩ :=
  ⟨⟨by decide, by decide⟩,
   putContent_missing_notFound [] ⟨some "AABBCCDDEEFF", none,
       some ⟨some "hi", none, none, none⟩, none⟩ "T1" "AABBCCDDEEFF"
     ⟨some "hi", none, none, none⟩ false false .ok (by decide)
     (Or.inl (by decide))⟩

/-- The keys the bulk-delete loop actually deletes: entries that read,
parse, validate and match the owner pair, and whose delete call does not
fail. -/
def bulkDeletedKeys (rf df : String → Bool) (owner ownerKey : String)
    (l : List (String × StoredVal)) : List String :=
  (l.filter (fun e => entryMatches rf owner ownerKey e && !df e.1)).map
    (fun e => e.1)

/-- The bulk-delete loop deletes exactly `bulkDeletedKeys` of its snapshot
and removes exactly those keys from whatever store it runs against. -/
theorem deleteByOwnerLoop_spec (rf df : String → Bool)
    (owner ownerKey : String) (l : List (String × StoredVal)) :
    ∀ σ : Store, deleteByOwnerLoop rf df owner ownerKey l σ =
      (bulkDeletedKeys rf df owner ownerKey l,
       σ.filter (fun e =>
         !((bulkDeletedKeys rf df owner ownerKey l).contains e.1))) := by
  induction l with
  | nil =>
    intro σ
    simp [deleteByOwnerLoop, bulkDeletedKeys]
  | cons e rest ih =>
    intro σ
    by_cases hcond : (entryMatches rf owner ownerKey e && !df e.1) = true
    · have hK : bulkDeletedKeys rf df owner ownerKey (e :: rest) =
          e.1 :: bulkDeletedKeys rf df owner ownerKey rest := by
        simp [bulkDeletedKeys, List.filter_cons, hcond]
      rw [deleteByOwnerLoop, if_pos hcond, ih, hK]
      simp only [Prod.mk.injEq]
      refine ⟨trivial, ?_⟩
      simp only [delVal, List.filter_filter]
      apply List.filter_congr
      intro x _
      have hcomm : (e.1 == x.1) = (x.1 == e.1) := Bool.beq_comm
      cases hx : (x.1 == e.1) <;>
        simp only [List.contains_cons, Bool.not_or, hcomm, hx, bne,
                   Bool.not_false, Bool.not_true, Bool.and_true,
                   Bool.and_false, Bool.true_and, Bool.false_and,
                   Bool.and_comm]
    · have hK : bulkDeletedKeys rf df owner ownerKey (e :: rest) =
          bulkDeletedKeys rf df owner ownerKey rest := by
        simp [bulkDeletedKeys, List.filter_cons, hcond]
      rw [deleteByOwnerLoop, if_neg hcond, ih, hK]

/-- A `find?` by key is unchanged by a filter that keeps every entry with
that key. -/
theorem find?_filter_key (l : List (String × StoredVal))
    (p : String × StoredVal → Bool) (k : String)
    (hp : ∀ e : String × StoredVal, (e.1 == k) = true → p e = true) :
    (l.filter p).find? (fun e => e.1 == k) =
      l.find? (fun e => e.1 == k) := by
  induction l with
  | nil => rfl
  | cons e rest ih =>
    by_cases he : (e.1 == k) = true
    · simp only [List.filter_cons_of_pos (hp e he), List.find?_cons, he]
    · have he' : (e.1 == k) = false := by
        cases h' : (e.1 == k)
        · rfl
        · exact absurd h' he
      cases hpe : p e
      · rw [List.filter_cons_of_neg (by simp [hpe]), ih]
        simp only [List.find?_cons, he']
      · rw [List.filter_cons_of_pos hpe]
        simp only [List.find?_cons, he']
        exact ih

/-- C8: the bulk delete deletes exactly the keys whose records read,
parse, validate and match the supplied owner pair and whose delete call
succeeds (a failed delete is skipped without aborting the loop and its
key is not reported); it returns that key list (the response count is its
length), and every key outside it — mismatched, malformed, or
failed-delete — is still retrievable with its old value afterwards. -/
theorem deleteByOwner_exact (rf df : String → Bool)
    (owner ownerKey : String) (st : Store) (k : String)
    (hk : (bulkDeletedKeys rf df owner ownerKey st).contains k = false) :
    (deleteByOwner rf df owner ownerKey st).1 =
      bulkDeletedKeys rf df owner ownerKey st ∧
    (deleteByOwner rf df owner ownerKey st).2 =
      st.filter (fun e =>
        !((bulkDeletedKeys rf df owner ownerKey st).contains e.1)) ∧
    lookup (deleteByOwner rf df owner ownerKey st).2 k = lookup st k := by
  have h := deleteByOwnerLoop_spec rf df owner ownerKey st st
  refine ⟨by rw [deleteByOwner, h], by rw [deleteByOwner, h], ?_⟩
  rw [deleteByOwner, h]
  simp only [lookup]
  rw [find?_filter_key]
  intro e he
  have hek : e.1 = k := beq_iff_eq.1 he
  rw [hek, hk]
  rfl

/-- Test fixture for C8: three `alice` devices (the delete of `M3`
fails), one `bob` device and one non-JSON value. -/
def c8Store : Store :=
  [("M1", .json fixtureRaw),
   ("M2", .json { fixtureRaw with deviceId := some "AABBCCDDEE02" }),
   ("M3", .json { fixtureRaw with deviceId := some "AABBCCDDEE03" }),
   ("N1", .json fixtureRawB),
   ("N2", .notJson)]

/-- The per-key delete failure injected for the C8 witness. -/
def c8DelFails (k : String) : Bool := k == "M3"

/-- Witness for C8 on the fixture store: `M1`, `M2` are deleted and
reported, `M3` survives its failed delete, and the `bob` device under
`N1` is still retrievable. -/
theorem deleteByOwner_exact_witness :
    ((bulkDeletedKeys (fun _ => false) c8DelFails "alice" fixtureKey
        c8Store).contains "N1" = false ∧
     bulkDeletedKeys (fun _ => false) c8DelFails "alice" fixtureKey
        c8Store = ["M1", "M2"]) ∧
    ((deleteByOwner (fun _ => false) c8DelFails "alice" fixtureKey
        c8Store).1 =
       bulkDeletedKeys (fun _ => false) c8DelFails "alice" fixtureKey
         c8Store ∧
     (deleteByOwner (fun _ => false) c8DelFails "alice" fixtureKey
        c8Store).2 =
       c8Store.filter (fun e =>
         !((bulkDeletedKeys (fun _ => false) c8DelFails "alice" fixtureKey
             c8Store).contains e.1)) ∧
     lookup (deleteByOwner (fun _ => false) c8DelFails "alice" fixtureKey
        c8Store).2 "N1" = lookup c8Store "N1") :=
  ⟨⟨by decide, by decide⟩,
   deleteByOwner_exact (fun _ => false) c8DelFails "alice" fixtureKey
     c8Store "N1" (by decide)⟩

end Quote0
